import Mathlib

/-!
Shallow embedding of the reference-counted pointer library
(src/lib.rs, src/arc.rs, src/rc.rs) and proofs about the claims of its
specification.

Modelling choices:
* A handle's observable state is the shared allocation header it points to.
  All handles aliasing one allocation observe the same header, so the model
  is a single header value threaded through the operations.
* `usize` is modelled as `Nat` on a 64-bit platform, with `% USIZE_MOD`
  wherever the source's arithmetic can wrap (atomic fetch_add / fetch_sub
  and the plain `- 1` in `Rc::dec_strong` wrap in release mode).
* The process abort triggered by the overflow guards is modelled as
  `Option.none` from the operation that aborts.
* Heap effects (running the payload destructor, deallocating the header
  block) are recorded as explicit booleans in the operation's result, since
  the claims quantify over them.
-/

/-- usize width on the modelled (64-bit) platform. -/
def USIZE_BITS : Nat := 64

/-- 2 ^ 64; usize arithmetic wraps modulo this. -/
def USIZE_MOD : Nat := 2 ^ USIZE_BITS

/-- usize::MAX. -/
def usizeMax : Nat := USIZE_MOD - 1

/-- src/arc.rs line 28: `const MAX_REFCOUNT: usize = (isize::MAX) as usize;` -/
def MAX_REFCOUNT : Nat := 2 ^ (USIZE_BITS - 1) - 1

/-- src/arc.rs lines 51-54: the allocation header of the atomic engine,
`{ strong: AtomicUsize, data: T }`. The atomic counter's value is a plain
`Nat` here (sequential semantics). -/
structure ArcInner (T : Type) where
  strong : Nat
  data : T
deriving DecidableEq

/-- src/rc.rs lines 30-33: the allocation header of the single-owner engine,
`{ strong: Cell<usize>, data: T }`. -/
structure RcBox (T : Type) where
  strong : Nat
  data : T
deriving DecidableEq

/-- Effects of one `drop` of an `Arc` handle: the header contents after the
decrement, whether this drop ran the payload destructor, and whether this
drop deallocated the heap block. -/
structure ArcDropResult (T : Type) where
  inner : ArcInner T
  destructed : Bool
  freed : Bool
deriving DecidableEq

/-- Effects of one `drop` of an `Rc` handle. -/
structure RcDropResult (T : Type) where
  inner : RcBox T
  destructed : Bool
  freed : Bool
deriving DecidableEq

/-- Result of `try_unwrap` on the atomic engine: `ok value destructed freed`
records whether the payload destructor ran again and whether the header
block was deallocated; `err` returns the handle (the header it aliases)
unchanged. -/
inductive ArcUnwrapResult (T : Type) where
  | ok (value : T) (destructed : Bool) (freed : Bool)
  | err (remaining : ArcInner T)
deriving DecidableEq

/-- Result of `try_unwrap` on the single-owner engine. -/
inductive RcUnwrapResult (T : Type) where
  | ok (value : T) (destructed : Bool) (freed : Bool)
  | err (remaining : RcBox T)
deriving DecidableEq

/-- Whether an `ArcUnwrapResult` is the success branch. -/
def ArcUnwrapResult.isOk {T : Type} : ArcUnwrapResult T → Bool
  | .ok _ _ _ => true
  | .err _ => false

/-- Whether an `RcUnwrapResult` is the success branch. -/
def RcUnwrapResult.isOk {T : Type} : RcUnwrapResult T → Bool
  | .ok _ _ _ => true
  | .err _ => false

/-- src/arc.rs lines 234-240: `Arc::new` allocates a header with count 1. -/
def Arc.new {T : Type} (data : T) : ArcInner T :=
  { strong := 1, data := data }

/-- src/rc.rs lines 164-168: `Rc::new` allocates a header with count 1. -/
def Rc.new {T : Type} (data : T) : RcBox T :=
  { strong := 1, data := data }

/-- src/arc.rs lines 84-86: `Arc::ref_count`, a SeqCst load of the counter. -/
def Arc.ref_count {T : Type} (s : ArcInner T) : Nat := s.strong

/-- src/rc.rs lines 51-53: `Rc::ref_count`, a plain read of the counter. -/
def Rc.ref_count {T : Type} (s : RcBox T) : Nat := s.strong

/-- src/arc.rs lines 369-373: `ReferenceCounted::reference_count` for `Arc`
(the numeric value of the `NonZeroUsize` it returns). -/
def Arc.reference_count {T : Type} (s : ArcInner T) : Nat :=
  Arc.ref_count s

/-- src/rc.rs lines 295-299: `ReferenceCounted::reference_count` for `Rc`. -/
def Rc.reference_count {T : Type} (s : RcBox T) : Nat :=
  Rc.ref_count s

/-- src/arc.rs lines 93-122: `Clone for Arc`. `fetch_add(1, Relaxed)` returns
the old value and wraps; if the old value exceeded `MAX_REFCOUNT` the
process aborts (`none`), otherwise a new handle to the same header is
returned. -/
def Arc.clone {T : Type} (s : ArcInner T) : Option (ArcInner T) :=
  let old_size := s.strong
  let s' : ArcInner T := { s with strong := (s.strong + 1) % USIZE_MOD }
  if old_size > MAX_REFCOUNT then none else some s'

/-- src/rc.rs lines 55-67: `Rc::inc_strong` on the counter value. The guard
aborts (`none`) when the current count is exactly 0 or exactly usize::MAX;
otherwise the counter becomes `strong + 1`. -/
def Rc.inc_strong (strong : Nat) : Option Nat :=
  if strong = 0 ∨ strong = usizeMax then none else some (strong + 1)

/-- src/rc.rs lines 75-84: `Clone for Rc` calls `inc_strong` and returns a
new handle to the same header. -/
def Rc.clone {T : Type} (s : RcBox T) : Option (RcBox T) :=
  (Rc.inc_strong s.strong).map (fun c => { s with strong := c })

/-- src/rc.rs lines 69-72: `Rc::dec_strong`, a plain wrapping `strong - 1`. -/
def Rc.dec_strong (strong : Nat) : Nat :=
  (strong + (USIZE_MOD - 1)) % USIZE_MOD

/-- src/arc.rs lines 125-192: `Drop for Arc`. `fetch_sub(1, Release)` returns
the old value; if it was not 1 nothing else happens. If it was 1, the
acquire fence is issued and `drop_slow` runs, which only calls
`ptr::drop_in_place` on the payload — arc.rs contains no `dealloc`, so the
heap block is never freed. -/
def Arc.drop {T : Type} (s : ArcInner T) : ArcDropResult T :=
  let old := s.strong
  let s' : ArcInner T := { s with strong := (s.strong + (USIZE_MOD - 1)) % USIZE_MOD }
  if old ≠ 1 then { inner := s', destructed := false, freed := false }
  else { inner := s', destructed := true, freed := false }

/-- src/rc.rs lines 110-121: `Drop for Rc`. Decrement; if the count is now 0,
`ptr::drop_in_place` the payload and `dealloc` the block. -/
def Rc.drop {T : Type} (s : RcBox T) : RcDropResult T :=
  let s' : RcBox T := { s with strong := Rc.dec_strong s.strong }
  if s'.strong = 0 then { inner := s', destructed := true, freed := true }
  else { inner := s', destructed := false, freed := false }

/-- src/arc.rs lines 242-254: `Arc::try_unwrap`. A compare-exchange from 1 to
0 fails (returning `Err(this)` with nothing modified) unless the count is
exactly 1; on success the payload is moved out with `ptr::read` and the
handle forgotten — no destructor runs again and no `dealloc` is called. -/
def Arc.try_unwrap {T : Type} (s : ArcInner T) : ArcUnwrapResult T :=
  if s.strong ≠ 1 then ArcUnwrapResult.err s
  else ArcUnwrapResult.ok s.data false false

/-- src/rc.rs lines 170-181: `Rc::try_unwrap`. If the count is exactly 1 the
payload is moved out with `ptr::read`, the block is deallocated, and the
handle forgotten; otherwise `Err(this)` with nothing modified. -/
def Rc.try_unwrap {T : Type} (s : RcBox T) : RcUnwrapResult T :=
  if Rc.ref_count s = 1 then RcUnwrapResult.ok s.data false true
  else RcUnwrapResult.err s

/-- src/arc.rs line 257: `pub struct UniqueArc<T>(Arc<T>)`; the wrapped
handle's header. -/
structure UniqueArc (T : Type) where
  val : ArcInner T
deriving DecidableEq

/-- src/rc.rs line 184: `pub struct UniqueRc<T>(Rc<T>)`. -/
structure UniqueRc (T : Type) where
  val : RcBox T
deriving DecidableEq

/-- src/arc.rs lines 306-317: `UniqueArc::try_unwrap`. Unconditionally:
acquire fence, `ptr::read` the payload, forget the handle, return `Ok`.
No count check, no destructor, no `dealloc`. -/
def UniqueArc.try_unwrap {T : Type} (u : UniqueArc T) : ArcUnwrapResult T :=
  ArcUnwrapResult.ok u.val.data false false

/-- src/rc.rs lines 233-243: `UniqueRc::try_unwrap`. Unconditionally:
`ptr::read` the payload, `dealloc` the block, forget the handle, return
`Ok`. No count check, no destructor run. -/
def UniqueRc.try_unwrap {T : Type} (u : UniqueRc T) : RcUnwrapResult T :=
  RcUnwrapResult.ok u.val.data false true

/-- src/arc.rs lines 350-352: `IntoMut::can_make_mut` for `Arc`:
`this.ref_count() == 1`. -/
def Arc.can_make_mut {T : Type} (s : ArcInner T) : Bool :=
  Arc.ref_count s == 1

/-- src/rc.rs lines 276-278: `IntoMut::can_make_mut` for `Rc`. -/
def Rc.can_make_mut {T : Type} (s : RcBox T) : Bool :=
  Rc.ref_count s == 1

/-- src/arc.rs lines 354-356: `IntoMut::into_mut_unchecked` for `Arc` wraps
the handle unchanged: `UniqueArc(this)`. -/
def Arc.into_mut_unchecked {T : Type} (s : ArcInner T) : UniqueArc T :=
  UniqueArc.mk s

/-- src/rc.rs lines 280-282: `IntoMut::into_mut_unchecked` for `Rc`. -/
def Rc.into_mut_unchecked {T : Type} (s : RcBox T) : UniqueRc T :=
  UniqueRc.mk s

/-- src/arc.rs lines 341-345: `Into<Arc<T>> for UniqueArc<T>` returns the
wrapped handle unchanged: `self.0`. -/
def UniqueArc.into {T : Type} (u : UniqueArc T) : ArcInner T :=
  u.val

/-- src/rc.rs lines 267-271: `Into<Rc<T>> for UniqueRc<T>`. -/
def UniqueRc.into {T : Type} (u : UniqueRc T) : RcBox T :=
  u.val

/-- C1: the claim says drop(h1); drop(h2) on an allocation with exactly two
live handles destructs the payload and releases the header memory exactly
once each, at the second drop, for both engines. On the Arc engine the
second drop destructs the payload but never deallocates the block (arc.rs
contains no dealloc); the Rc engine does both. This theorem evaluates both
engines on the two-handle scenario and exhibits the divergence. -/
theorem C1_arc_second_drop_never_frees :
    (let r1 := Arc.drop ({ strong := 2, data := 42 } : ArcInner Nat)
     let r2 := Arc.drop r1.inner
     r1.destructed = false ∧ r1.freed = false ∧
       r2.inner.strong = 0 ∧ r2.destructed = true ∧ r2.freed = false) ∧
    (let q1 := Rc.drop ({ strong := 2, data := 42 } : RcBox Nat)
     let q2 := Rc.drop q1.inner
     q1.destructed = false ∧ q1.freed = false ∧
       q2.inner.strong = 0 ∧ q2.destructed = true ∧ q2.freed = true) := by
  decide

/-- C2: the claim says try_unwrap at count exactly 1 moves the payload out,
releases the header memory, does not run the payload destructor again, and
succeeds. On the Arc engine the success branch performs no dealloc (freed =
false below), diverging from the claim; the Rc engine releases the block as
claimed. -/
theorem C2_arc_try_unwrap_never_frees :
    Arc.try_unwrap ({ strong := 1, data := 42 } : ArcInner Nat)
        = ArcUnwrapResult.ok 42 false false ∧
    Rc.try_unwrap ({ strong := 1, data := 42 } : RcBox Nat)
        = RcUnwrapResult.ok 42 false true := by
  decide

/-- C9: for every payload v and either engine, new(v) yields a handle whose
reference count is 1 and whose observed payload equals v. -/
theorem C9_new_count_one_payload {T : Type} (v : T) :
    Arc.reference_count (Arc.new v) = 1 ∧ (Arc.new v).data = v ∧
    Rc.reference_count (Rc.new v) = 1 ∧ (Rc.new v).data = v := by
  exact ⟨rfl, rfl, rfl, rfl⟩

/-- C10: for every exclusive wrapper of either engine, try_unwrap succeeds
unconditionally, returning Ok with the payload; the count (quantified over
all values c here) is never examined and no Err branch exists. -/
theorem C10_unique_try_unwrap_total {T : Type} (c : Nat) (v : T) :
    UniqueArc.try_unwrap (UniqueArc.mk { strong := c, data := v })
        = ArcUnwrapResult.ok v false false ∧
    UniqueRc.try_unwrap (UniqueRc.mk { strong := c, data := v })
        = RcUnwrapResult.ok v false true := by
  exact ⟨rfl, rfl⟩

/-- C5: for every handle state of either engine, can_make_mut is true iff
the reference count equals 1. -/
theorem C5_can_make_mut_iff_count_one {T : Type} (s : ArcInner T) (t : RcBox T) :
    (Arc.can_make_mut s = true ↔ Arc.reference_count s = 1) ∧
    (Rc.can_make_mut t = true ↔ Rc.reference_count t = 1) := by
  constructor <;>
    simp [Arc.can_make_mut, Rc.can_make_mut, Arc.reference_count,
      Rc.reference_count, Arc.ref_count, Rc.ref_count]

/-- C3: for either engine, try_unwrap succeeds iff the reference count is
exactly 1 at the call; on failure the returned handle is the input
unchanged (same payload, same count, allocation untouched). -/
theorem C3_try_unwrap_iff_count_one {T : Type} (s : ArcInner T) (t : RcBox T) :
    ((Arc.try_unwrap s).isOk = true ↔ Arc.reference_count s = 1) ∧
    (Arc.reference_count s ≠ 1 → Arc.try_unwrap s = ArcUnwrapResult.err s) ∧
    ((Rc.try_unwrap t).isOk = true ↔ Rc.reference_count t = 1) ∧
    (Rc.reference_count t ≠ 1 → Rc.try_unwrap t = RcUnwrapResult.err t) := by
  refine ⟨?_, ?_, ?_, ?_⟩
  · by_cases h : s.strong = 1 <;>
      simp [Arc.try_unwrap, Arc.reference_count, Arc.ref_count,
        ArcUnwrapResult.isOk, h]
  · intro h
    simp [Arc.try_unwrap, Arc.reference_count, Arc.ref_count] at h ⊢
    simp [h]
  · by_cases h : t.strong = 1 <;>
      simp [Rc.try_unwrap, Rc.reference_count, Rc.ref_count,
        RcUnwrapResult.isOk, h]
  · intro h
    simp [Rc.try_unwrap, Rc.reference_count, Rc.ref_count] at h ⊢
    simp [h]

/-- C3 witness: the failure branches of both engines evaluated at a shared
allocation with count 2 and payload 7, via the theorem. -/
theorem C3_try_unwrap_iff_count_one_witness :
    Arc.try_unwrap ({ strong := 2, data := 7 } : ArcInner Nat)
        = ArcUnwrapResult.err { strong := 2, data := 7 } ∧
    Rc.try_unwrap ({ strong := 2, data := 7 } : RcBox Nat)
        = RcUnwrapResult.err { strong := 2, data := 7 } :=
  ⟨(C3_try_unwrap_iff_count_one
      ({ strong := 2, data := 7 } : ArcInner Nat)
      ({ strong := 2, data := 7 } : RcBox Nat)).2.1 (by decide),
   (C3_try_unwrap_iff_count_one
      ({ strong := 2, data := 7 } : ArcInner Nat)
      ({ strong := 2, data := 7 } : RcBox Nat)).2.2.2 (by decide)⟩

/-- C4 counterexample: a clone whose pre-increment count is exactly
MAX_REFCOUNT (= isize::MAX) pushes the count above the soft ceiling, yet
neither engine aborts there: the Arc guard only fires when the old count
already exceeds MAX_REFCOUNT, and the Rc guard only fires at 0 or
usize::MAX. -/
theorem C4_clone_at_ceiling_does_not_abort :
    Arc.clone ({ strong := MAX_REFCOUNT, data := 0 } : ArcInner Nat)
        = some { strong := MAX_REFCOUNT + 1, data := 0 } ∧
    Rc.clone ({ strong := MAX_REFCOUNT, data := 0 } : RcBox Nat)
        = some { strong := MAX_REFCOUNT + 1, data := 0 } ∧
    MAX_REFCOUNT < MAX_REFCOUNT + 1 := by
  refine ⟨?_, ?_, Nat.lt_succ_self _⟩
  · simp [Arc.clone, MAX_REFCOUNT, USIZE_MOD, USIZE_BITS]
  · simp [Rc.clone, Rc.inc_strong, MAX_REFCOUNT, usizeMax, USIZE_MOD,
      USIZE_BITS]

/-- C4 amended: the Arc engine's clone aborts exactly when the observed
pre-increment count exceeds MAX_REFCOUNT (so the count can reach
MAX_REFCOUNT + 1, one past the soft ceiling, but the next clone aborts),
and a successful clone increments by exactly 1 without wrapping; the Rc
engine's guard aborts exactly at pre-increment count 0 or usize::MAX, and
a successful increment never wraps. -/
theorem C4_overflow_guard_amended {T : Type} (c : Nat) (v : T)
    (hc : c < USIZE_MOD) :
    (Arc.clone ({ strong := c, data := v } : ArcInner T) = none ↔
      MAX_REFCOUNT < c) ∧
    (∀ s', Arc.clone ({ strong := c, data := v } : ArcInner T) = some s' →
      s'.strong = c + 1 ∧ s'.strong ≤ MAX_REFCOUNT + 1) ∧
    (Rc.clone ({ strong := c, data := v } : RcBox T) = none ↔
      c = 0 ∨ c = usizeMax) ∧
    (∀ t', Rc.clone ({ strong := c, data := v } : RcBox T) = some t' →
      t'.strong = c + 1 ∧ t'.strong ≤ usizeMax) := by
  refine ⟨?_, ?_, ?_, ?_⟩
  · by_cases h : MAX_REFCOUNT < c <;> simp [Arc.clone, h]
  · intro s' hs'
    by_cases h : MAX_REFCOUNT < c
    · simp [Arc.clone, h] at hs'
    · simp [Arc.clone, h] at hs'
      have hle : c ≤ MAX_REFCOUNT := Nat.le_of_not_lt h
      have hmod : c + 1 < USIZE_MOD := by
        have : MAX_REFCOUNT + 1 < USIZE_MOD := by
          simp [MAX_REFCOUNT, USIZE_MOD, USIZE_BITS]
        omega
      subst hs'
      simp [Nat.mod_eq_of_lt hmod]
      omega
  · by_cases h : c = 0 ∨ c = usizeMax <;>
      simp [Rc.clone, Rc.inc_strong, h]
  · intro t' ht'
    by_cases h : c = 0 ∨ c = usizeMax
    · simp [Rc.clone, Rc.inc_strong, h] at ht'
    · simp [Rc.clone, Rc.inc_strong, h] at ht'
      subst ht'
      simp
      simp [usizeMax] at h ⊢
      omega

/-- C4 amended witness: the amended guard behaviour evaluated at count 3,
where clone succeeds and increments to 4. -/
theorem C4_overflow_guard_amended_witness :
    ({ strong := 4, data := 0 } : ArcInner Nat).strong = 3 + 1 ∧
    ({ strong := 4, data := 0 } : RcBox Nat).strong = 3 + 1 :=
  ⟨((C4_overflow_guard_amended (T := Nat) 3 0 (by decide)).2.1
      { strong := 4, data := 0 } (by decide)).1,
   ((C4_overflow_guard_amended (T := Nat) 3 0 (by decide)).2.2.2
      { strong := 4, data := 0 } (by decide)).1⟩

/-- C6: for either engine, a successful clone increments the shared count by
exactly 1 (observed through the resulting header, which both handles
alias) and leaves the payload unchanged; and the clone's effect on the
count is independent of the payload value, i.e. the payload is never read. -/
theorem C6_clone_frame {T : Type} (s : ArcInner T) (t : RcBox T) :
    (∀ s', Arc.clone s = some s' →
      Arc.reference_count s' = Arc.reference_count s + 1 ∧ s'.data = s.data) ∧
    (∀ (c : Nat) (v w : T),
      Option.map ArcInner.strong (Arc.clone { strong := c, data := v })
        = Option.map ArcInner.strong (Arc.clone { strong := c, data := w })) ∧
    (∀ t', Rc.clone t = some t' →
      Rc.reference_count t' = Rc.reference_count t + 1 ∧ t'.data = t.data) ∧
    (∀ (c : Nat) (v w : T),
      Option.map RcBox.strong (Rc.clone { strong := c, data := v })
        = Option.map RcBox.strong (Rc.clone { strong := c, data := w })) := by
  refine ⟨?_, ?_, ?_, ?_⟩
  · intro s' hs'
    by_cases h : s.strong > MAX_REFCOUNT
    · simp [Arc.clone, h] at hs'
    · simp [Arc.clone, h] at hs'
      have hlt : s.strong + 1 < USIZE_MOD := by
        simp [MAX_REFCOUNT, USIZE_MOD, USIZE_BITS] at h ⊢
        omega
      subst hs'
      simp [Arc.reference_count, Arc.ref_count, Nat.mod_eq_of_lt hlt]
  · intro c v w
    by_cases h : c > MAX_REFCOUNT <;> simp [Arc.clone, h]
  · intro t' ht'
    by_cases h : t.strong = 0 ∨ t.strong = usizeMax
    · simp [Rc.clone, Rc.inc_strong, h] at ht'
    · simp [Rc.clone, Rc.inc_strong, h] at ht'
      subst ht'
      simp [Rc.reference_count, Rc.ref_count]
  · intro c v w
    by_cases h : c = 0 ∨ c = usizeMax <;> simp [Rc.clone, Rc.inc_strong, h]

/-- C6 witness: cloning a fresh handle (count 1, payload 5) on either engine
yields count 2 with the payload untouched, via the theorem. -/
theorem C6_clone_frame_witness :
    (Arc.reference_count ({ strong := 2, data := 5 } : ArcInner Nat)
        = Arc.reference_count ({ strong := 1, data := 5 } : ArcInner Nat) + 1 ∧
      ({ strong := 2, data := 5 } : ArcInner Nat).data
        = ({ strong := 1, data := 5 } : ArcInner Nat).data) ∧
    (Rc.reference_count ({ strong := 2, data := 5 } : RcBox Nat)
        = Rc.reference_count ({ strong := 1, data := 5 } : RcBox Nat) + 1 ∧
      ({ strong := 2, data := 5 } : RcBox Nat).data
        = ({ strong := 1, data := 5 } : RcBox Nat).data) :=
  ⟨(C6_clone_frame ({ strong := 1, data := 5 } : ArcInner Nat)
      ({ strong := 1, data := 5 } : RcBox Nat)).1
      { strong := 2, data := 5 } (by decide),
   (C6_clone_frame ({ strong := 1, data := 5 } : ArcInner Nat)
      ({ strong := 1, data := 5 } : RcBox Nat)).2.2.1
      { strong := 2, data := 5 } (by decide)⟩

/-- C7: the Rc engine's increment guard aborts exactly when the current
count is 0 or usize::MAX, checked before incrementing; in every other case
the increment proceeds to count + 1. -/
theorem C7_rc_inc_guard (strong : Nat) :
    (Rc.inc_strong strong = none ↔ strong = 0 ∨ strong = usizeMax) ∧
    (strong ≠ 0 → strong ≠ usizeMax →
      Rc.inc_strong strong = some (strong + 1)) := by
  constructor
  · by_cases h : strong = 0 ∨ strong = usizeMax <;> simp [Rc.inc_strong, h]
  · intro h1 h2
    simp [Rc.inc_strong, h1, h2]

/-- C7 witness: incrementing from count 1 succeeds and yields 2. -/
theorem C7_rc_inc_guard_witness : Rc.inc_strong 1 = some (1 + 1) :=
  (C7_rc_inc_guard 1).2 (by decide) (by decide)

/-- C8: converting a uniquely-owned handle of either engine into the
exclusive wrapper and back yields the very same header (same allocation,
same payload) with the same reference count; neither direction mutates the
count. -/
theorem C8_exclusive_roundtrip {T : Type} (s : ArcInner T) (t : RcBox T)
    (hs : Arc.reference_count s = 1) (ht : Rc.reference_count t = 1) :
    UniqueArc.into (Arc.into_mut_unchecked s) = s ∧
    Arc.reference_count (UniqueArc.into (Arc.into_mut_unchecked s))
      = Arc.reference_count s ∧
    UniqueRc.into (Rc.into_mut_unchecked t) = t ∧
    Rc.reference_count (UniqueRc.into (Rc.into_mut_unchecked t))
      = Rc.reference_count t :=
  ⟨rfl, rfl, rfl, rfl⟩

/-- C8 witness: the round trip evaluated on fresh handles with payload 9. -/
theorem C8_exclusive_roundtrip_witness :
    UniqueArc.into (Arc.into_mut_unchecked
        ({ strong := 1, data := 9 } : ArcInner Nat))
      = { strong := 1, data := 9 } ∧
    UniqueRc.into (Rc.into_mut_unchecked
        ({ strong := 1, data := 9 } : RcBox Nat))
      = { strong := 1, data := 9 } :=
  have h := C8_exclusive_roundtrip
    ({ strong := 1, data := 9 } : ArcInner Nat)
    ({ strong := 1, data := 9 } : RcBox Nat) (by decide) (by decide)
  ⟨h.1, h.2.2.1⟩
